import Mathlib

/-!
Shallow embedding of `src/tokenizer_server.py`, a single-endpoint HTTP
service that converts text into token ids and an attention mask by
delegating to an external tokenizer library.

The external tokenizer (the `tokenizers` package) is not part of this
repository; it is modelled as an opaque capability parameter exposing
one fallible operation `encode : String -> Except TokenizerError Encoding`,
exactly as the spec describes it.  Everything the repository itself
does (the pydantic request model `TextInput`, the `tokenize` handler,
the module-level construction of the shared tokenizer from a fixed
path) is embedded faithfully from the source.

Observable effects of a request are made explicit as a trace of
`Effect` values emitted while handling it, so that claims such as
"the tokenizer is never invoked" or "no retry is performed" are
statements about the trace.
-/

/-- JSON values, the wire format of request and response bodies.
Numbers are modelled as integers, which covers every number this
service reads or writes (token ids and attention-mask elements). -/
inductive Json where
  | null : Json
  | bool (b : Bool) : Json
  | num (n : Int) : Json
  | str (s : String) : Json
  | arr (elems : List Json) : Json
  | obj (fields : List (String × Json)) : Json

/-- Looking a key up in a JSON object the way a Python dict built from
JSON text behaves: when a key occurs several times, the last
occurrence wins. -/
def lookupLast (k : String) : List (String × Json) → Option Json
  | [] => none
  | (k0, v) :: rest =>
    match lookupLast k rest with
    | some v0 => some v0
    | none => if k0 = k then some v else none

/-- The `Encoding` value returned by the external tokenizer: token ids
and the attention mask, as in `encoding.ids` and
`encoding.attention_mask` on lines 15-16 of the source. -/
structure Encoding where
  ids : List Int
  attention_mask : List Int
deriving DecidableEq

/-- An opaque failure of the external tokenizer library. -/
structure TokenizerError where
  message : String
deriving DecidableEq

/-- The tokenizer capability: the process-wide object constructed once
at startup, exposing one operation `encode(text) -> Encoding`.  The
operation is fallible because the library may raise. -/
structure TokenizerCap where
  encode : String → Except TokenizerError Encoding

/-- The pydantic request model on lines 8-9 of the source:
`class TextInput(BaseModel): text: str`. -/
structure TextInput where
  text : String
deriving DecidableEq

/-- A validation failure produced at the request boundary (FastAPI
turns it into an HTTP 422 response before the handler body runs). -/
inductive ValidationError where
  | notAnObject : ValidationError
  | missingField (name : String) : ValidationError
  | wrongType (name : String) : ValidationError
deriving DecidableEq

/-- Validation of a request body against the `TextInput` model, as
FastAPI/pydantic perform it for `def tokenize(req: TextInput)`: the
body must be a JSON object, the field `text` must be present and must
be a JSON string; unknown extra fields are ignored (the pydantic
default).  Any failure is a client-input error. -/
def parseTextInput (body : Json) : Except ValidationError TextInput :=
  match body with
  | .obj fields =>
    match lookupLast "text" fields with
    | some (.str s) => .ok ⟨s⟩
    | some _ => .error (.wrongType "text")
    | none => .error (.missingField "text")
  | _ => .error .notAnObject

/-- The response payload built on lines 14-17 of the source. -/
structure TokenizeResponse where
  ids : List Int
  attention_mask : List Int
deriving DecidableEq

/-- Serialization of the response dict to the JSON body FastAPI sends:
`{"ids": encoding.ids, "attention_mask": encoding.attention_mask}`. -/
def TokenizeResponse.toJson (r : TokenizeResponse) : Json :=
  .obj [("ids", .arr (r.ids.map .num)),
        ("attention_mask", .arr (r.attention_mask.map .num))]

/-- The body of the `tokenize` handler (lines 12-17 of the source):
call `tokenizer.encode(req.text)` and return its `ids` and
`attention_mask` unchanged; if `encode` raises, the exception
propagates out of the handler. -/
def tokenize (cap : TokenizerCap) (req : TextInput) :
    Except TokenizerError TokenizeResponse :=
  match cap.encode req.text with
  | .error e => .error e
  | .ok encoding => .ok ⟨encoding.ids, encoding.attention_mask⟩

/-- An observable effect performed while serving a request.  The only
constructor is an invocation of the shared tokenizer capability:
the handler performs nothing else (no persistence, no logging, no
mutation). -/
inductive Effect where
  | encodeCall (text : String) : Effect
deriving DecidableEq

/-- The HTTP response of one `POST /tokenize` request. -/
inductive HttpResponse where
  | ok (body : Json) : HttpResponse
  | unprocessableEntity (e : ValidationError) : HttpResponse
  | internalServerError (e : TokenizerError) : HttpResponse

/-- Whether a response is a client-input error (the 4xx class; here
only 422). -/
def HttpResponse.isClientError : HttpResponse → Bool
  | .unprocessableEntity _ => true
  | _ => false

/-- Whether a response is a server error (the 5xx class). -/
def HttpResponse.isServerError : HttpResponse → Bool
  | .internalServerError _ => true
  | _ => false

/-- One full `POST /tokenize` request cycle: FastAPI validates the
body against `TextInput` (failure yields 422 before the handler body
runs), then the handler calls `encode` exactly once and either
propagates its failure as a server error or returns the encoding as
the 200 body.  The second component is the trace of effects emitted. -/
def handleTokenize (cap : TokenizerCap) (body : Json) :
    HttpResponse × List Effect :=
  match parseTextInput body with
  | .error e => (.unprocessableEntity e, [])
  | .ok req =>
    match tokenize cap req with
    | .error e => (.internalServerError e, [.encodeCall req.text])
    | .ok resp => (.ok resp.toJson, [.encodeCall req.text])

/-- Whether a request body would pass `TextInput` validation: it is a
JSON object whose `text` field is present and is a JSON string. -/
def hasTextString (body : Json) : Bool :=
  match body with
  | .obj fields =>
    match lookupLast "text" fields with
    | some (.str _) => true
    | _ => false
  | _ => false

/-- The process state after startup: the single shared tokenizer
instance bound at module level on line 6 of the source.  Nothing else
in the module is mutable. -/
structure ServerState where
  tokenizer : TokenizerCap

/-- The hard-coded model file path on line 6 of the source. -/
def modelPath : String := "models/all-MiniLM-L6-v2/tokenizer.json"

/-- Process initialization (line 6 of the source):
`tokenizer = Tokenizer.from_file("models/all-MiniLM-L6-v2/tokenizer.json")`
runs once at import time, before any request can be served.  The
external `Tokenizer.from_file` is a parameter; the second component
records every path it is asked to load.  A failure aborts startup, so
no `ServerState` exists and no request is ever handled. -/
def startup (fromFile : String → Except TokenizerError TokenizerCap) :
    Except TokenizerError ServerState × List String :=
  match fromFile modelPath with
  | .error e => (.error e, [modelPath])
  | .ok cap => (.ok ⟨cap⟩, [modelPath])

/-- Serving one request against the process state: the handler only
reads the shared tokenizer and returns the state unchanged, embedding
the fact that the source handler assigns to nothing. -/
def serve (st : ServerState) (body : Json) : HttpResponse × ServerState :=
  ((handleTokenize st.tokenizer body).1, st)

/-- A concrete deterministic tokenizer capability used as a witness
instance (the values mimic a BERT-style encoding of "hello world"). -/
def demoCap : TokenizerCap :=
  ⟨fun _ => .ok ⟨[101, 7592, 2088, 102], [1, 1, 1, 1]⟩⟩

/-- A concrete always-failing tokenizer capability used as a witness
instance. -/
def failCap : TokenizerCap :=
  ⟨fun _ => .error ⟨"tokenizer failure"⟩⟩

/-- A concrete always-failing model-file loader used as a witness
instance for the startup theorem. -/
def failFromFile : String → Except TokenizerError TokenizerCap :=
  fun _ => .error ⟨"missing model file"⟩

/-- Helper: a body that fails the `hasTextString` test is rejected by
`TextInput` validation with some validation error. -/
theorem parseTextInput_error_of_invalid (body : Json)
    (h : hasTextString body = false) :
    ∃ e, parseTextInput body = .error e := by
  cases body with
  | obj fields =>
    cases hl : lookupLast "text" fields with
    | none => exact ⟨.missingField "text", by simp [parseTextInput, hl]⟩
    | some v =>
      cases v with
      | str s =>
        simp [hasTextString, hl] at h
      | null => exact ⟨.wrongType "text", by simp [parseTextInput, hl]⟩
      | bool b => exact ⟨.wrongType "text", by simp [parseTextInput, hl]⟩
      | num n => exact ⟨.wrongType "text", by simp [parseTextInput, hl]⟩
      | arr xs => exact ⟨.wrongType "text", by simp [parseTextInput, hl]⟩
      | obj fs => exact ⟨.wrongType "text", by simp [parseTextInput, hl]⟩
  | null => exact ⟨.notAnObject, rfl⟩
  | bool b => exact ⟨.notAnObject, rfl⟩
  | num n => exact ⟨.notAnObject, rfl⟩
  | str s => exact ⟨.notAnObject, rfl⟩
  | arr xs => exact ⟨.notAnObject, rfl⟩

/-- C1: for every valid TokenizeRequest (body whose `text` field is
present and is a string, i.e. validation succeeds), the response of
POST /tokenize carries `ids` and `attention_mask` exactly as produced
by the tokenizer capability for that text, element for element and in
order, with no post-processing, truncation, or padding; the tokenizer
is invoked exactly once, on the given text. -/
theorem tokenize_exact_passthrough (cap : TokenizerCap) (body : Json)
    (req : TextInput) (enc : Encoding)
    (hparse : parseTextInput body = .ok req)
    (henc : cap.encode req.text = .ok enc) :
    handleTokenize cap body =
      (HttpResponse.ok (Json.obj
        [("ids", Json.arr (enc.ids.map Json.num)),
         ("attention_mask", Json.arr (enc.attention_mask.map Json.num))]),
       [Effect.encodeCall req.text]) := by
  simp [handleTokenize, hparse, tokenize, henc, TokenizeResponse.toJson]

theorem tokenize_exact_passthrough_witness :
    handleTokenize demoCap (Json.obj [("text", Json.str "hello world")]) =
      (HttpResponse.ok (Json.obj
        [("ids", Json.arr (([101, 7592, 2088, 102] : List Int).map Json.num)),
         ("attention_mask", Json.arr (([1, 1, 1, 1] : List Int).map Json.num))]),
       [Effect.encodeCall "hello world"]) :=
  tokenize_exact_passthrough demoCap (Json.obj [("text", Json.str "hello world")])
    ⟨"hello world"⟩ ⟨[101, 7592, 2088, 102], [1, 1, 1, 1]⟩ rfl rfl

/-- C2: a request body missing the `text` field, or whose `text` is
not a string, yields a client-input error (422), never a server
error, and the tokenizer capability is never invoked (empty effect
trace). -/
theorem invalid_text_client_error_no_encode (cap : TokenizerCap) (body : Json)
    (h : hasTextString body = false) :
    (handleTokenize cap body).1.isClientError = true ∧
    (handleTokenize cap body).1.isServerError = false ∧
    (handleTokenize cap body).2 = [] := by
  obtain ⟨e, he⟩ := parseTextInput_error_of_invalid body h
  simp [handleTokenize, he, HttpResponse.isClientError, HttpResponse.isServerError]

theorem invalid_text_client_error_no_encode_witness :
    (handleTokenize demoCap (Json.obj [("txt", Json.str "x")])).1.isClientError = true ∧
    (handleTokenize demoCap (Json.obj [("txt", Json.str "x")])).1.isServerError = false ∧
    (handleTokenize demoCap (Json.obj [("txt", Json.str "x")])).2 = [] :=
  invalid_text_client_error_no_encode demoCap (Json.obj [("txt", Json.str "x")]) rfl

/-- C3: for every valid text input, the response satisfies
len(ids) = len(attention_mask), under the hypothesis that the
external encode returns same-length sequences. -/
theorem response_ids_mask_same_length (cap : TokenizerCap) (body : Json)
    (req : TextInput) (enc : Encoding)
    (hparse : parseTextInput body = .ok req)
    (henc : cap.encode req.text = .ok enc)
    (hlen : enc.ids.length = enc.attention_mask.length) :
    ∃ r : TokenizeResponse,
      handleTokenize cap body = (HttpResponse.ok r.toJson, [Effect.encodeCall req.text]) ∧
      r.ids.length = r.attention_mask.length := by
  refine ⟨⟨enc.ids, enc.attention_mask⟩, ?_, hlen⟩
  simp [handleTokenize, hparse, tokenize, henc]

theorem response_ids_mask_same_length_witness :
    ∃ r : TokenizeResponse,
      handleTokenize demoCap (Json.obj [("text", Json.str "hello world")]) =
        (HttpResponse.ok r.toJson, [Effect.encodeCall "hello world"]) ∧
      r.ids.length = r.attention_mask.length :=
  response_ids_mask_same_length demoCap (Json.obj [("text", Json.str "hello world")])
    ⟨"hello world"⟩ ⟨[101, 7592, 2088, 102], [1, 1, 1, 1]⟩ rfl rfl rfl

/-- C4: for every valid text input, every element of the response
attention mask is 0 or 1, under the hypothesis that the external
encode produces mask elements in 0/1; the handler passes them through
unmodified. -/
theorem response_mask_elements_binary (cap : TokenizerCap) (body : Json)
    (req : TextInput) (enc : Encoding)
    (hparse : parseTextInput body = .ok req)
    (henc : cap.encode req.text = .ok enc)
    (hbin : ∀ m ∈ enc.attention_mask, m = 0 ∨ m = 1) :
    ∃ r : TokenizeResponse,
      handleTokenize cap body = (HttpResponse.ok r.toJson, [Effect.encodeCall req.text]) ∧
      ∀ m ∈ r.attention_mask, m = 0 ∨ m = 1 := by
  refine ⟨⟨enc.ids, enc.attention_mask⟩, ?_, hbin⟩
  simp [handleTokenize, hparse, tokenize, henc]

theorem response_mask_elements_binary_witness :
    ∃ r : TokenizeResponse,
      handleTokenize demoCap (Json.obj [("text", Json.str "hello world")]) =
        (HttpResponse.ok r.toJson, [Effect.encodeCall "hello world"]) ∧
      ∀ m ∈ r.attention_mask, m = 0 ∨ m = 1 :=
  response_mask_elements_binary demoCap (Json.obj [("text", Json.str "hello world")])
    ⟨"hello world"⟩ ⟨[101, 7592, 2088, 102], [1, 1, 1, 1]⟩ rfl rfl (by decide)

/-- C5: the empty-string input is a valid request: POST /tokenize with
text = "" returns a well-formed TokenizeResponse (whatever sequences
the tokenizer yields, possibly empty or special-token-only) and fails
with neither a client nor a server error. -/
theorem empty_string_well_formed_response (cap : TokenizerCap) (enc : Encoding)
    (henc : cap.encode "" = .ok enc) :
    ∃ r : TokenizeResponse,
      handleTokenize cap (Json.obj [("text", Json.str "")]) =
        (HttpResponse.ok r.toJson, [Effect.encodeCall ""]) ∧
      (handleTokenize cap (Json.obj [("text", Json.str "")])).1.isClientError = false ∧
      (handleTokenize cap (Json.obj [("text", Json.str "")])).1.isServerError = false := by
  have hparse : parseTextInput (Json.obj [("text", Json.str "")]) = .ok ⟨""⟩ := rfl
  refine ⟨⟨enc.ids, enc.attention_mask⟩, ?_, ?_, ?_⟩ <;>
    simp [handleTokenize, hparse, tokenize, henc,
      HttpResponse.isClientError, HttpResponse.isServerError]

theorem empty_string_well_formed_response_witness :
    ∃ r : TokenizeResponse,
      handleTokenize demoCap (Json.obj [("text", Json.str "")]) =
        (HttpResponse.ok r.toJson, [Effect.encodeCall ""]) ∧
      (handleTokenize demoCap (Json.obj [("text", Json.str "")])).1.isClientError = false ∧
      (handleTokenize demoCap (Json.obj [("text", Json.str "")])).1.isServerError = false :=
  empty_string_well_formed_response demoCap ⟨[101, 7592, 2088, 102], [1, 1, 1, 1]⟩ rfl

/-- C6: the handler is deterministic: two requests that validate to
the same `text` value, served against the same tokenizer capability
(the same loaded model), produce identical responses and identical
effect traces. -/
theorem handler_deterministic (cap : TokenizerCap) (b1 b2 : Json)
    (r1 r2 : TextInput)
    (h1 : parseTextInput b1 = .ok r1)
    (h2 : parseTextInput b2 = .ok r2)
    (ht : r1.text = r2.text) :
    handleTokenize cap b1 = handleTokenize cap b2 := by
  have hr : r1 = r2 := by
    cases r1
    cases r2
    simpa using ht
  subst hr
  simp [handleTokenize, h1, h2]

theorem handler_deterministic_witness :
    handleTokenize demoCap (Json.obj [("text", Json.str "hello world")]) =
      handleTokenize demoCap (Json.obj [("text", Json.str "hello world")]) :=
  handler_deterministic demoCap
    (Json.obj [("text", Json.str "hello world")])
    (Json.obj [("text", Json.str "hello world")])
    ⟨"hello world"⟩ ⟨"hello world"⟩ rfl rfl rfl

/-- C7: when the tokenizer capability fails on a valid request, the
failure propagates out of the handler as a server error; the effect
trace shows exactly one encode invocation: no retry, no fallback, the
failure is surfaced immediately. -/
theorem encode_failure_server_error_no_retry (cap : TokenizerCap) (body : Json)
    (req : TextInput) (e : TokenizerError)
    (hparse : parseTextInput body = .ok req)
    (henc : cap.encode req.text = .error e) :
    handleTokenize cap body =
      (HttpResponse.internalServerError e, [Effect.encodeCall req.text]) ∧
    (handleTokenize cap body).1.isServerError = true := by
  constructor <;>
    simp [handleTokenize, hparse, tokenize, henc, HttpResponse.isServerError]

theorem encode_failure_server_error_no_retry_witness :
    handleTokenize failCap (Json.obj [("text", Json.str "x")]) =
      (HttpResponse.internalServerError ⟨"tokenizer failure"⟩, [Effect.encodeCall "x"]) ∧
    (handleTokenize failCap (Json.obj [("text", Json.str "x")])).1.isServerError = true :=
  encode_failure_server_error_no_retry failCap (Json.obj [("text", Json.str "x")])
    ⟨"x"⟩ ⟨"tokenizer failure"⟩ rfl rfl

/-- C8: startup loads exactly one file, the fixed hard-coded path, and
does so exactly once (the load trace is precisely [modelPath]); if
the load fails, startup propagates the failure and yields no
ServerState, so no request can ever be handled; if it succeeds, the
resulting state holds the constructed capability. -/
theorem startup_fixed_path_once_fatal
    (fromFile : String → Except TokenizerError TokenizerCap) :
    (startup fromFile).2 = [modelPath] ∧
    (∀ e, fromFile modelPath = .error e → (startup fromFile).1 = .error e) ∧
    (∀ cap, fromFile modelPath = .ok cap → (startup fromFile).1 = .ok ⟨cap⟩) := by
  rcases h : fromFile modelPath with e | cap
  · refine ⟨by simp [startup, h], fun e0 he0 => ?_, fun cap0 hc0 => ?_⟩
    · cases he0
      simp [startup, h]
    · cases hc0
  · refine ⟨by simp [startup, h], fun e0 he0 => ?_, fun cap0 hc0 => ?_⟩
    · cases he0
    · cases hc0
      simp [startup, h]

theorem startup_fixed_path_once_fatal_witness :
    (startup failFromFile).2 = [modelPath] ∧
    (startup failFromFile).1 = .error ⟨"missing model file"⟩ :=
  ⟨(startup_fixed_path_once_fatal failFromFile).1,
   (startup_fixed_path_once_fatal failFromFile).2.1 ⟨"missing model file"⟩ rfl⟩

/-- C9: serving a request leaves the process state (the shared
tokenizer instance) unchanged, and every effect the handler emits is
an invocation of the tokenizer capability: nothing is persisted,
logged, or mutated. -/
theorem handler_no_side_effects (st : ServerState) (body : Json) :
    (serve st body).2 = st ∧
    ∀ eff ∈ (handleTokenize st.tokenizer body).2, ∃ t, eff = Effect.encodeCall t := by
  refine ⟨rfl, fun eff _ => ?_⟩
  cases eff with
  | encodeCall t => exact ⟨t, rfl⟩

theorem handler_no_side_effects_witness :
    (serve ⟨demoCap⟩ (Json.obj [("text", Json.str "hi")])).2 = ⟨demoCap⟩ ∧
    ∃ t, Effect.encodeCall "hi" = Effect.encodeCall t :=
  ⟨(handler_no_side_effects ⟨demoCap⟩ (Json.obj [("text", Json.str "hi")])).1,
   (handler_no_side_effects ⟨demoCap⟩ (Json.obj [("text", Json.str "hi")])).2
     (Effect.encodeCall "hi") (by decide)⟩

/-- C10: a body whose `text` field is a string is accepted even when
extra unknown fields are present: the response is identical to the
one for the body containing only `text`, and the request is not
rejected as a client error. -/
theorem extra_fields_ignored (cap : TokenizerCap)
    (fields : List (String × Json)) (t : String)
    (h : lookupLast "text" fields = some (Json.str t)) :
    handleTokenize cap (Json.obj fields) =
      handleTokenize cap (Json.obj [("text", Json.str t)]) ∧
    (handleTokenize cap (Json.obj fields)).1.isClientError = false := by
  have h1 : parseTextInput (Json.obj fields) = .ok ⟨t⟩ := by
    simp [parseTextInput, h]
  have h2 : parseTextInput (Json.obj [("text", Json.str t)]) = .ok ⟨t⟩ := rfl
  constructor
  · simp [handleTokenize, h1, h2]
  · rcases htok : tokenize cap ⟨t⟩ with e | r <;>
      simp [handleTokenize, h1, htok, HttpResponse.isClientError]

theorem extra_fields_ignored_witness :
    handleTokenize demoCap
        (Json.obj [("text", Json.str "hi"), ("extra", Json.num 1)]) =
      handleTokenize demoCap (Json.obj [("text", Json.str "hi")]) ∧
    (handleTokenize demoCap
        (Json.obj [("text", Json.str "hi"), ("extra", Json.num 1)])).1.isClientError = false :=
  extra_fields_ignored demoCap
    [("text", Json.str "hi"), ("extra", Json.num 1)] "hi" rfl
